import Mathlib

/-!
Verification development for the question-and-answer interrogation engine
(src/src/lib/questioner.mjs and src/src/lib/lib/translate-type.mjs).

The engine is embedded shallowly:

* JS runtime values handled by the engine become the inductive `Value`
  (strings, booleans, integers, arrays, and the JS undefined).
* Interrogation-bundle actions become the structure `ActionS`; map entries
  become `MapEntry`.  Field names follow the source.
* The external condition-eval expression service (out of scope for the
  engine, consumed as an opaque collaborator) is embedded as the tiny
  expression type `CondExpr` covering the forms the bundles under test
  use: a parameter reference, a negated parameter reference, and a
  literal.  Truthiness follows JS semantics.
* The string-input coercion primitives (ValidatedString, BooleanString,
  Integer, Numeric) are embedded as `PType` together with
  `verifyAnswerFormB`.  Numeric values are restricted to integers in this
  embedding (no claim exercises fractional literals); custom callable type
  validators and the numeric expression evaluator are represented by
  explicit `external` errors, so runs that would need them never succeed
  in the model rather than being silently approximated.
* The engine keeps mutable per-action state (disposition, rawAnswer and a
  value property are assigned onto the very action objects) and its
  results array holds references to those same objects
  (addResult pushes `source`, not the tidied clone).  This aliasing is
  modelled by `ART` (per-action runtime state), `ResultRef` (a result is
  a reference to an action or to a map entry of an action) and `QState`.
* Operator interaction is modelled by a list of input lines and a list of
  tagged output events (`OutEvent`); each event corresponds to one
  this.#write call site in the source.  Prompt text building (hints,
  option columns) is abstracted into the event payload.
* The unbounded review-rejection restart of processActions is given a
  fuel parameter counting allowed restarts.
-/

namespace QnA

/-- Decidable equality for Except results, used to state facts about
model runs. -/
instance {ε α : Type} [DecidableEq ε] [DecidableEq α] : DecidableEq (Except ε α)
  | .ok a, .ok b =>
    if h : a = b then .isTrue (by rw [h])
    else .isFalse (fun hh => h (by cases hh; rfl))
  | .ok _, .error _ => .isFalse (fun h => by cases h)
  | .error _, .ok _ => .isFalse (fun h => by cases h)
  | .error a, .error b =>
    if h : a = b then .isTrue (by rw [h])
    else .isFalse (fun hh => h (by cases hh; rfl))

/-- Whitespace as matched by the regex class backslash-s and by JS trim
(the forms relevant to line-based input). -/
def isWs (c : Char) : Bool :=
  c = ' ' ∨ c = '\t' ∨ c = '\n' ∨ c = '\r'

/-- Drop leading whitespace characters. -/
def dropLeadingWs : List Char → List Char
  | [] => []
  | c :: rest => if isWs c then dropLeadingWs rest else c :: rest

/-- JS String.prototype.trim (kernel-reducible replacement for the
built-in trim). -/
def jsTrim (s : String) : String :=
  String.mk ((dropLeadingWs (dropLeadingWs s.data).reverse).reverse)

/-- ASCII lower-casing of one character. -/
def lowerChar (c : Char) : Char :=
  if 'A' ≤ c ∧ c ≤ 'Z' then Char.ofNat (c.toNat + 32) else c

/-- ASCII lower-casing of a string (kernel-reducible replacement for the
built-in toLowerCase; the type tokens and boolean spellings involved are
all ASCII). -/
def strLower (s : String) : String :=
  String.mk (s.data.map lowerChar)

/-- Decimal digits of a character sequence. -/
def digitsToNat : List Char → Option Nat
  | [] => none
  | [c] => if '0' ≤ c ∧ c ≤ '9' then some (c.toNat - 48) else none
  | c :: rest =>
    if '0' ≤ c ∧ c ≤ '9' then
      (digitsToNat rest).map (fun n => (c.toNat - 48) * 10 ^ rest.length + n)
    else none

/-- Strict integer parse: an optional minus sign followed by decimal
digits (kernel-reducible stand-in for the string-input Integer parse
and the trusted parseInt of a previously validated raw answer). -/
def strToIntOpt (s : String) : Option Int :=
  match s.data with
  | '-' :: rest => (digitsToNat rest).map (fun n => -(n : Int))
  | cs => (digitsToNat cs).map (fun n => (n : Int))

/-- Decimal digit characters of a natural number (fuel-based so the
kernel can reduce it; a fuel of n suffices for n). -/
def natToStrAux : Nat → Nat → List Char
  | 0, _ => []
  | fuel + 1, n =>
    if n < 10 then [Char.ofNat (48 + n)]
    else natToStrAux fuel (n / 10) ++ [Char.ofNat (48 + n % 10)]

/-- Decimal rendering of a natural number. -/
def natToStr (n : Nat) : String :=
  String.mk (natToStrAux (n + 1) n)

/-- Decimal rendering of an integer (JS Number.prototype.toString for
integral values). -/
def intToStr (i : Int) : String :=
  if i < 0 then "-" ++ natToStr (-i).toNat else natToStr i.toNat

/-- Literal prefix test on character lists. -/
def litPrefix : List Char → List Char → Bool
  | [], _ => true
  | _ :: _, [] => false
  | a :: as, b :: bs => if a = b then litPrefix as bs else false

/-- Suffix test on strings (kernel-reducible replacement for the
built-in endsWith). -/
def strEndsWith (s pat : String) : Bool :=
  litPrefix pat.data.reverse s.data.reverse

/-- Occurrence test of a pattern inside a character sequence. -/
def occursIn (pat : List Char) : List Char → Bool
  | [] => litPrefix pat []
  | c :: rest => if litPrefix pat (c :: rest) then true else occursIn pat rest

/-- Join strings with commas (JS Array.prototype.join with the default
separator). -/
def joinCommas : List String → String
  | [] => ""
  | [s] => s
  | s :: rest => s ++ "," ++ joinCommas rest

/-- Primitive JS values the engine manipulates: strings, booleans,
integers (numerics are restricted to integers in this embedding) and the
JS undefined value. -/
inductive Prim where
  | pStr (s : String)
  | pBool (b : Bool)
  | pInt (n : Int)
  | pUndefined
deriving DecidableEq, Repr

/-- JS values: a primitive or a flat array of primitives.  The engine
only ever constructs flat arrays (multi-value answers and the
two-element issue array of verifyAnswerForm), so array nesting is
outside this embedding. -/
inductive Value where
  | prim (p : Prim)
  | arr (ps : List Prim)
deriving DecidableEq, Repr

/-- Shorthand for a string value. -/
def Value.vStr (s : String) : Value := .prim (.pStr s)

/-- Shorthand for a boolean value. -/
def Value.vBool (b : Bool) : Value := .prim (.pBool b)

/-- Shorthand for an integer value. -/
def Value.vInt (n : Int) : Value := .prim (.pInt n)

/-- Shorthand for the undefined value. -/
def Value.vUndefined : Value := .prim .pUndefined

/-- JS toString of a primitive. -/
def Prim.toStr : Prim → String
  | .pStr s => s
  | .pBool b => if b then "true" else "false"
  | .pInt n => intToStr n
  | .pUndefined => "undefined"

/-- JS toString of a value (arrays join their elements with commas). -/
def Value.toStr : Value → String
  | .prim p => p.toStr
  | .arr ps => joinCommas (ps.map Prim.toStr)

/-- JS truthiness of a primitive. -/
def Prim.truthy : Prim → Bool
  | .pStr s => s ≠ ""
  | .pBool b => b
  | .pInt n => n ≠ 0
  | .pUndefined => false

/-- JS truthiness of a value (arrays are always truthy). -/
def Value.truthy : Value → Bool
  | .prim p => p.truthy
  | .arr _ => true

/-- Embedded expressions for the external condition-eval service: a
parameter reference, a negated parameter reference, or a boolean literal.
These cover every condition appearing in the bundles of this
development. -/
inductive CondExpr where
  | cvar (n : String)
  | cneg (n : String)
  | clit (b : Bool)
deriving DecidableEq, Repr

/-- Type specification attached to an action or map entry: either a string
token (translated by translateType) or a callable type validator (JS
function values are passed through by translateType). -/
inductive TypeSpec where
  | tok (s : String)
  | callable
deriving DecidableEq, Repr

/-- The four built-in string-input coercions translateType can produce:
ValidatedString, BooleanString, Integer, Numeric. -/
inductive PType where
  | tString
  | tBool
  | tInt
  | tNum
deriving DecidableEq, Repr

/-- Result of translateType: one of the built-in coercions or the
caller-supplied callable validator (left opaque in this embedding). -/
inductive CoerceKind where
  | builtin (t : PType)
  | custom
deriving DecidableEq, Repr

/-- One entry of the maps array of a mapping action.  The condition field
is representable here because bundles may carry it, but no code path of
processMapping ever reads it. -/
structure MapEntry where
  parameter : Option String := none
  source : Option CondExpr := none
  value : Option Value := none
  type : Option TypeSpec := none
  condition : Option CondExpr := none
deriving DecidableEq, Repr

/-- One action of the interrogation bundle.  Fields mirror the source:
prompt / maps / statement / review are the four kind discriminators. -/
structure ActionS where
  prompt : Option String := none
  parameter : Option String := none
  type : Option TypeSpec := none
  condition : Option CondExpr := none
  elseValue : Option Value := none
  elseSource : Option CondExpr := none
  noSkipDefined : Bool := false
  maps : Option (List MapEntry) := none
  statement : Option String := none
  review : Option String := none
  multiValue : Bool := false
  separator : Option String := none
  options : Option (List String) := none
  default : Option Value := none
  required : Bool := false
deriving DecidableEq, Repr

/-- Disposition constant ANSWERED from the source. -/
def ANSWERED : String := "answered"

/-- Disposition constant CONDITION_SKIPPED from the source. -/
def CONDITION_SKIPPED : String := "condition-skipped"

/-- Disposition constant DEFINED_SKIPPED from the source.  The source
line reads: const DEFINED_SKIPPED = (the string) define-skipped — note
the missing letter d, the constant name notwithstanding. -/
def DEFINED_SKIPPED : String := "define-skipped"

/-- Structured configuration issues raised by verifyInterrogationBundle;
the payloads record the data interpolated into the thrown message (the
1-based action number where the message names one). -/
inductive ConfigIssue where
  | noActionType (n : Nat)
  | noParameter (n : Nat)
  | invalidType (t : String) (n : Nat)
  | mappingNoParameter
  | mappingNoSourceOrValue (p : String)
  | invalidReview (r : String)
  | defaultNotInOptions
deriving DecidableEq, Repr

/-- Errors a model run can produce.  config wraps construction-time
verification failures; argInvalid models thrown ArgumentInvalidError at
run time; outOfInput means the scripted operator input was exhausted;
fuelOut means the review-restart budget was exhausted; jsError marks a
path where the JS code itself would crash; external marks a path whose
behaviour depends on an external collaborator this embedding leaves
opaque (numeric expression evaluation, callable type validators), so no
modelled run may rely on it. -/
inductive Err where
  | config (i : ConfigIssue)
  | argInvalid (msg : String)
  | outOfInput
  | fuelOut
  | jsError (msg : String)
  | external (msg : String)
deriving DecidableEq, Repr

/-- translateType from src/src/lib/lib/translate-type.mjs: functions pass
through, undefined and recognized lower-cased tokens map to the built-in
coercions, anything else throws. -/
def translateType : Option TypeSpec → Except Err CoerceKind
  | some .callable => .ok .custom
  | none => .ok (.builtin .tString)
  | some (.tok s) =>
    let t := strLower s
    if t = "string" then .ok (.builtin .tString)
    else if t = "int" || t = "integer" then .ok (.builtin .tInt)
    else if t = "float" || t = "numeric" then .ok (.builtin .tNum)
    else if t = "bool" || t = "boolean" then .ok (.builtin .tBool)
    else .error (.argInvalid ("Unknown parameter type: " ++ t))

/-- BooleanString from string-input: accepted truthy and falsy spellings,
case-insensitively.  The numeric spellings 1 and 0 are included (the
source test suite relies on BooleanString accepting them). -/
def parseBoolAnswer (s : String) : Option Bool :=
  let l := strLower s
  if l = "y" || l = "yes" || l = "t" || l = "true" || l = "1" then some true
  else if l = "n" || l = "no" || l = "f" || l = "false" || l = "0" then some false
  else none

/-- verifyAnswerForm specialised to a coercion kind: coerce one raw string
through the type, returning the typed value or the validation issue
message.  Validation option objects are not exercised by any claim and
are omitted; custom callable validators are external and unmodelled. -/
def verifyAnswerFormB (k : CoerceKind) (input : String) : Except String Value :=
  match k with
  | .custom => .error "custom type validator is external to this model"
  | .builtin .tString => .ok (.vStr input)
  | .builtin .tBool =>
    match parseBoolAnswer input with
    | some b => .ok (.vBool b)
    | none => .error ("could not be parsed as a boolean: " ++ input)
  | .builtin .tInt =>
    match strToIntOpt input with
    | some n => .ok (.vInt n)
    | none => .error ("does not appear to be an integer: " ++ input)
  | .builtin .tNum =>
    match strToIntOpt input with
    | some n => .ok (.vInt n)
    | none => .error ("does not appear to be numeric: " ++ input)

/-- Substring test: does s contain pat (pat nonempty)?  Encoded through
splitOn, which produces at least two fragments exactly when pat occurs. -/
def hasSubstr (s pat : String) : Bool :=
  occursIn pat.data s.data

/-- The construction-time type-token test of verifyInterrogationBundle.
The source applies the unanchored, case-sensitive regular expression
alternation of bool(ean)? / int(eger)? / float / numeric / string, which
succeeds exactly when the token contains one of the five stems as a
(case-sensitive) substring. -/
def typeRegexTest (t : String) : Bool :=
  hasSubstr t "bool" || hasSubstr t "int" || hasSubstr t "float"
    || hasSubstr t "numeric" || hasSubstr t "string"

/-- First verification issue of the maps array of a mapping action
(verifyMapping in the source): each entry needs a parameter and at least
one of source / value. -/
def mappingIssue : List MapEntry → Option ConfigIssue
  | [] => none
  | m :: rest =>
    match m.parameter with
    | none => some .mappingNoParameter
    | some p =>
      if m.source = none ∧ m.value = none then
        some (.mappingNoSourceOrValue p)
      else mappingIssue rest

/-- Per-kind verification checks of one action: the else-if chain of
the forEach body of verifyInterrogationBundle.  It tests prompt first,
so an action carrying several discriminators is handled by the first
matching kind and is never rejected for the surplus. -/
def actionKindIssue (a : ActionS) : Option (Nat → ConfigIssue) :=
  if a.prompt ≠ none then
    if a.parameter = none then some (fun n => .noParameter n)
    else
      match a.type with
      | some (.tok t) =>
        if typeRegexTest t then none else some (fun n => .invalidType t n)
      | _ => none
  else if a.maps ≠ none then
    (mappingIssue (a.maps.getD [])).map (fun i _ => i)
  else if a.review ≠ none then
    if a.review = some "all" ∨ a.review = some "questions" then none
    else some (fun _ => .invalidReview (a.review.getD ""))
  else none

/-- Options checks of one action (run after the per-kind checks): when
options is present together with a default, the default must be one of
the options.  The options-must-be-an-array check of the source is not
representable here because the embedded options field is typed as a
list. -/
def optionsIssue (a : ActionS) : Option (Nat → ConfigIssue) :=
  match a.options, a.default with
  | some opts, some d =>
    if d ∈ opts.map Value.vStr then none
    else some (fun _ => .defaultNotInOptions)
  | _, _ => none

/-- First verification issue of one action, as a function of its 1-based
position (the position is only interpolated into messages, so success is
position-independent).  Mirrors the forEach body of
verifyInterrogationBundle: the kind-discriminator check, then the
per-kind checks, then the options checks. -/
def actionIssue (a : ActionS) : Option (Nat → ConfigIssue) :=
  if a.prompt = none ∧ a.maps = none ∧ a.statement = none ∧ a.review = none then
    some (fun n => .noActionType n)
  else
    match actionKindIssue a with
    | some i => some i
    | none => optionsIssue a

/-- The forEach of verifyInterrogationBundle from a given 0-based start
position: the first failing action aborts with its issue. -/
def verifyIBFrom : Nat → List ActionS → Except ConfigIssue Unit
  | _, [] => .ok ()
  | i, a :: rest =>
    match actionIssue a with
    | some f => .error (f (i + 1))
    | none => verifyIBFrom (i + 1) rest

/-- verifyInterrogationBundle: verify the whole action list before any
user interaction. -/
def verifyInterrogationBundle (acts : List ActionS) : Except ConfigIssue Unit :=
  verifyIBFrom 0 acts

/-- Runtime state of one action object.  The engine mutates the action
objects in place: disposition and rawAnswer are assigned onto them, and
addResult assigns a value property onto the source object before pushing
it.  aval is the value property of the action itself (some none when the
property was assigned the undefined value); mvals are the value
properties of the map entries, aligned with base.maps. -/
structure ART where
  base : ActionS
  disposition : Option String := none
  rawAnswer : Option String := none
  aval : Option (Option Value) := none
  mvals : List (Option Value) := []
deriving DecidableEq, Repr

/-- A result held by the engine.  addResult pushes the very source
object, so a result is a reference: either to the action at a position
(question, condition-skip, defined-skip and review results) or to map
entry j of the action at position i (mapping results). -/
inductive ResultRef where
  | act (i : Nat)
  | mref (i : Nat) (j : Nat)
deriving DecidableEq, Repr

/-- Whole engine state: the cloned action list with runtime annotations
(position = the stable index assigned at construction), the results
list of references, the initial parameters and the engine-global
noSkipDefined flag. -/
structure QState where
  acts : List ART
  results : List ResultRef
  init : List (String × Value)
  noSkipDefined : Bool := false
deriving DecidableEq, Repr

/-- Update the element at a position of a list (no-op when out of
range). -/
def updAt : List α → Nat → (α → α) → List α
  | [], _, _ => []
  | x :: xs, 0, f => f x :: xs
  | x :: xs, n + 1, f => x :: updAt xs n f

/-- Parameter field of the object a result references. -/
def resParameter (st : QState) : ResultRef → Option String
  | .act i => (st.acts[i]?).bind (fun a => a.base.parameter)
  | .mref i j =>
    (st.acts[i]?).bind (fun a => ((a.base.maps.getD [])[j]?).bind (fun m => m.parameter))

/-- Value property of the object a result references (none when the
property is unset or was assigned undefined; the two are observably
identical to JS reads). -/
def resValue (st : QState) : ResultRef → Option Value
  | .act i => ((st.acts[i]?).bind (fun a => a.aval)).join
  | .mref i j => ((st.acts[i]?).bind (fun a => a.mvals[j]?)).join

/-- Disposition of the object a result references (map entries never
receive one). -/
def resDisposition (st : QState) : ResultRef → Option String
  | .act i => (st.acts[i]?).bind (fun a => a.disposition)
  | .mref _ _ => none

/-- The stable index property of the object a result references (only
action objects receive one at construction). -/
def resIndex : ResultRef → Option Nat
  | .act i => some i
  | .mref _ _ => none

/-- Lookup in the initial parameters object. -/
def initLookup (st : QState) (p : String) : Option Value :=
  (st.init.find? (fun kv => kv.1 = p)).map (fun kv => kv.2)

/-- getResult generalised to an optional name, because the engine calls
it with action.parameter which may be undefined (JS strict equality
treats two undefined as equal): the first result whose parameter equals
the key. -/
def getResultO (st : QState) (p : Option String) : Option ResultRef :=
  st.results.find? (fun r => resParameter st r = p)

/-- The public getResult accessor: first recorded result for the
parameter. -/
def getResult (st : QState) (p : String) : Option ResultRef :=
  getResultO st (some p)

/-- The get accessor: the first results value for the parameter, falling
back to the initial parameters when that is undefined. -/
def getVal (st : QState) (p : Option String) : Option Value :=
  match (getResultO st p).bind (resValue st) with
  | some v => some v
  | none => p.bind (fun q => initLookup st q)

/-- The has accessor: get is defined, or the name is a key of the
initial parameters. -/
def hasParam (st : QState) (p : Option String) : Bool :=
  (getVal st p).isSome ||
    (match p with
     | some q => (st.init.find? (fun kv => kv.1 = q)).isSome
     | none => false)

/-- The values getter reduces the results in order with later entries
overwriting earlier ones, so a lookup reads the last result for the
name. -/
def valuesLast (st : QState) (p : String) : Option Value :=
  (st.results.reverse.find? (fun r => resParameter st r = some p)).bind (resValue st)

/-- Merged evaluation context handed to the expression service:
Object.assign of the initial parameters and the values object.  A
results entry for the name overrides the initial value even when its
value property is undefined. -/
def evalCtx (st : QState) (p : String) : Option Value :=
  match st.results.reverse.find? (fun r => resParameter st r = some p) with
  | some r => resValue st r
  | none => initLookup st p

/-- Truthiness evaluation of an embedded condition against the merged
context (the external condition-eval service). -/
def evalTruth (st : QState) : CondExpr → Bool
  | .cvar n => ((evalCtx st n).map Value.truthy).getD false
  | .cneg n => !((evalCtx st n).map Value.truthy).getD false
  | .clit b => b

/-- addResult: assign the value onto the referenced source object and
push the reference onto the results list (the tidied clone the source
builds is discarded; the source object itself is pushed). -/
def addResult (st : QState) (r : ResultRef) (v : Option Value) : QState :=
  match r with
  | .act i =>
    { st with
      acts := updAt st.acts i (fun a => { a with aval := some v })
      results := st.results ++ [r] }
  | .mref i j =>
    { st with
      acts := updAt st.acts i (fun a => { a with mvals := updAt a.mvals j (fun _ => v) })
      results := st.results ++ [r] }

/-- Set the disposition property of the action at a position. -/
def setDisposition (st : QState) (i : Nat) (d : String) : QState :=
  { st with acts := updAt st.acts i (fun a => { a with disposition := some d }) }

/-- Set the rawAnswer property of the action at a position. -/
def setRawAnswer (st : QState) (i : Nat) (ra : Option String) : QState :=
  { st with acts := updAt st.acts i (fun a => { a with rawAnswer := ra }) }

/-- The characters the separator-escaping replaceAll of askQuestion
prefixes with a backslash: dot, plus, star, question mark, caret,
dollar, pipe, parentheses, braces, brackets and backslash. -/
def regexMeta : List Char :=
  ['.', '+', '*', '?', '^', '$', '|', '(', ')',
   Char.ofNat 0x7b, Char.ofNat 0x7d, '[', ']', '\\']

/-- The replaceAll escaping a user-defined separator undergoes before it
is embedded into the splitting regular expression. -/
def escapeRegExp (s : String) : String :=
  String.mk (s.data.foldr (fun c acc => if c ∈ regexMeta then '\\' :: c :: acc else c :: acc) [])

/-- Interpret the (escaped) separator fragment of the splitting pattern
as a literal character sequence.  A backslash escapes the next
character; a bare metacharacter means the pattern is not a plain
literal (for an unescaped separator JS would build a different - or
syntactically invalid - regular expression), reported as none. -/
def sepLiteral : List Char → Option (List Char)
  | [] => some []
  | '\\' :: c :: rest => (sepLiteral rest).map (fun l => c :: l)
  | '\\' :: [] => none
  | c :: rest =>
    if c ∈ regexMeta then none else (sepLiteral rest).map (fun l => c :: l)

/-- Number of leading whitespace characters. -/
def countLeadingWs : List Char → Nat
  | [] => 0
  | c :: rest => if isWs c then countLeadingWs rest + 1 else 0

/-- Greedy search for the number of leading whitespace characters the
pattern consumes before the literal matches, trying the largest first
(regex backtracking of a greedy whitespace star). -/
def bestLeadAux (lits cs : List Char) : Nat → Option Nat
  | 0 => if litPrefix lits cs then some 0 else none
  | k + 1 =>
    if litPrefix lits (cs.drop (k + 1)) then some (k + 1)
    else bestLeadAux lits cs k

/-- Match the pattern whitespace-star, literal, whitespace-star at the
start of cs, returning the number of characters consumed. -/
def matchSepAt (lits cs : List Char) : Option Nat :=
  if lits.isEmpty then none
  else
    match bestLeadAux lits cs (countLeadingWs cs) with
    | none => none
    | some k =>
      let after := cs.drop (k + lits.length)
      some (k + lits.length + countLeadingWs after)

/-- String.prototype.split against the compiled pattern: scan left to
right, cutting a token at each leftmost match.  A successful separator
match consumes at least one character, so a fuel of the scanned length
is exact; the zero-fuel equation is unreachable from regexSplit. -/
def splitCharsAux (lits : List Char) : Nat → List Char → List Char → List (List Char)
  | _, [], tok => [tok.reverse]
  | 0, cs, tok => [tok.reverse ++ cs]
  | fuel + 1, c :: rest, tok =>
    match matchSepAt lits (c :: rest) with
    | some n => tok.reverse :: splitCharsAux lits fuel ((c :: rest).drop n) []
    | none => splitCharsAux lits fuel rest (c :: tok)

/-- Split a string by the escaped separator pattern, as
answer.split(new RegExp(...)) does; none when the escaped separator is
not a plain literal pattern. -/
def regexSplit (sepEsc : String) (s : String) : Option (List String) :=
  (sepLiteral sepEsc.data).map
    (fun lits => (splitCharsAux lits s.data.length s.data []).map (fun cs => String.mk cs))

/-- Observable output events; each corresponds to one write call site of
the source.  Prompt events carry the parameter of the question so that
statements about which parameters were prompted are direct. -/
inductive OutEvent where
  | promptQ (param : Option String) (text : String)
  | warn (msg : String)
  | stmt (text : String)
  | blank
  | reviewShow (params : List (Option String))
  | reviewAsk
deriving DecidableEq, Repr

/-- Number of prompts issued for a parameter in an output trace. -/
def promptCount (out : List OutEvent) (p : String) : Nat :=
  out.countP (fun e => match e with | .promptQ param _ => param = some p | _ => false)

/-- Assemble a multi-value answer array.  The engine only produces flat
arrays; an array element inside a multi-value answer (conceivable only
through an array default) is outside this embedding. -/
def mkArrayValue (vs : List Value) : Except Err Value :=
  match vs.mapM (fun v => match v with | .prim p => some p | .arr _ => none) with
  | some ps => .ok (.arr ps)
  | none => .error (.external "nested array values are outside this embedding")

/-- The invalid-selection message of an options question. -/
def invalidSelMsg (n : Nat) : String :=
  "Invalid selection. Please enter a number between 1 and " ++ natToStr n ++ "."

/-- Per-token validation loop of askQuestion.  An empty token takes the
default if there is one; a free-form token is coerced through the
declared type; an options token must be an integer selection within
range and resolves to the option text.  A failure carries whether the
rawAnswer is deleted before the re-ask (the no-default branch does not
delete it). -/
def collectAnswers (k : CoerceKind) (q : ActionS) (dv : Option Value) :
    List String → Except (Bool × String) (List Value)
  | [] => .ok []
  | tok :: toks =>
    match
      (if tok = "" then
        match dv with
        | some v => .ok v
        | none => .error (false, "No default defined. Please provide a valid answer.")
      else
        match q.options with
        | none =>
          match verifyAnswerFormB k tok with
          | .ok v => .ok v
          | .error issue => .error (true, issue)
        | some opts =>
          match strToIntOpt tok with
          | some n =>
            if (if q.required then (1 : Int) else 0) ≤ n ∧ n ≤ opts.length then
              -- the selection resolves to the option text; a selection of 0
              -- (admitted when the question is not required) reads the
              -- undefined element before the first option
              .ok (if 1 ≤ n then Value.vStr (opts.getD (n - 1).toNat "") else Value.vUndefined)
            else .error (true, invalidSelMsg opts.length)
          | none => .error (true, invalidSelMsg opts.length)
        : Except (Bool × String) Value) with
    | .error e => .error e
    | .ok v => (collectAnswers k q dv toks).map (fun vs => v :: vs)

/-- askQuestion: derive the default (a previously typed rawAnswer wins
over the static default, decoded as a selection index for options
questions, and a string default is re-coerced through the type), issue
the prompt, read one line, split a multi-value answer by the escaped
separator, validate every token, and either record the answered result
or warn and re-ask the whole question on the remaining input. -/
def askQuestion (st : QState) (qi : Nat) (input : List String) (out : List OutEvent) :
    Except Err (QState × List String × List OutEvent) :=
  match st.acts[qi]? with
  | none => .error (.jsError "no action at this index")
  | some art =>
    let q := art.base
    match translateType q.type with
    | .error e => .error e
    | .ok k =>
      let dv0 : Option Value :=
        match q.options with
        | none =>
          match art.rawAnswer with
          | some ra => some (.vStr ra)
          | none => q.default
        | some opts =>
          match art.rawAnswer with
          | some ra =>
            match strToIntOpt ra with
            | some n =>
              if 1 ≤ n ∧ n ≤ opts.length then some (.vStr (opts.getD (n - 1).toNat ""))
              else none
            | none => none
          | none => q.default
      let dv : Option Value :=
        match dv0 with
        | some (.prim (.pStr s)) =>
          -- the source destructures the first element of verifyAnswerForm
          -- without inspecting the issue, so a failing default becomes
          -- undefined
          match verifyAnswerFormB k s with
          | .ok v => some v
          | .error _ => none
        | other => other
      let out := out ++ [.promptQ q.parameter (q.prompt.getD "")]
      match input with
      | [] => .error .outOfInput
      | line :: rest =>
        let answer := jsTrim line
        if answer = "-" then
          -- the positively-blank sentinel makes the answer undefined and
          -- deletes rawAnswer; the undefined answer then reaches
          -- String.prototype.split (a TypeError for multi-value questions)
          -- or the string-input validators, which is outside this embedding
          .error (.jsError "sentinel dash path not modelled")
        else
          let st1 := setRawAnswer st qi (some answer)
          let sepEsc :=
            match q.separator with
            | some s => let e := escapeRegExp s; if e = "" then "," else e
            | none => ","
          match (if q.multiValue then regexSplit sepEsc answer else some [answer]) with
          | none => .error (.jsError "separator compiled to a non-literal pattern")
          | some splitAnswers =>
            match collectAnswers k q dv splitAnswers with
            | .ok values =>
              let st2 := setDisposition st1 qi ANSWERED
              match (if q.multiValue then mkArrayValue values else .ok (values.headD .vUndefined)) with
              | .ok value => .ok (addResult st2 (.act qi) (some value), rest, out)
              | .error e => .error e
            | .error (dropRaw, issue) =>
              let st2 := if dropRaw then setRawAnswer st1 qi none else st1
              askQuestion st2 qi rest (out ++ [.warn issue])

/-- Condition-skip branch of processActions: tag the action
condition-skipped, then record the elseValue (note the source assigns
the whole array verifyAnswerForm returns for a string elseValue, without
destructuring), else the evaluated elseSource (boolean evaluation for a
boolean type; numeric evaluation is external), else a result with no
value at all. -/
def condSkipStep (st : QState) (i : Nat) : Except Err QState :=
  match st.acts[i]? with
  | none => .error (.jsError "no action at this index")
  | some art =>
    let a := art.base
    let st1 := setDisposition st i CONDITION_SKIPPED
    match translateType a.type with
    | .error e => .error e
    | .ok k =>
      match a.elseValue with
      | some ev =>
        let value : Value :=
          match ev with
          | .prim (.pStr s) =>
            match verifyAnswerFormB k s with
            | .ok (.prim p) => .arr [p]
            | .ok (.arr ps) => .arr ps
            | .error m => .arr [.pUndefined, .pStr m]
          | _ => ev
        .ok (addResult st1 (.act i) (some value))
      | none =>
        match a.elseSource with
        | some es =>
          match (if k = .builtin .tBool then
                   .ok (Value.vBool (evalTruth st1 es))
                 else
                   .error (Err.external "numeric expression evaluation is outside this embedding")
                 : Except Err Value) with
          | .error e => .error e
          | .ok evalResult =>
            let v : Option Value :=
              match verifyAnswerFormB k evalResult.toStr with
              | .ok vv => some vv
              | .error _ => none
            .ok (addResult st1 (.act i) v)
        | none => .ok (addResult st1 (.act i) none)

/-- Defined-skip branch of processActions: tag the action
defined-skipped and re-record the current get value coerced through the
declared type; a coercion failure is a fatal invalid-argument error
(there is nobody to re-prompt). -/
def definedSkipStep (st : QState) (i : Nat) : Except Err QState :=
  match st.acts[i]? with
  | none => .error (.jsError "no action at this index")
  | some art =>
    let a := art.base
    let st1 := setDisposition st i DEFINED_SKIPPED
    match translateType a.type with
    | .error e => .error e
    | .ok k =>
      match getVal st1 a.parameter with
      | none => .error (.jsError "toString applied to the undefined value")
      | some cur =>
        match verifyAnswerFormB k cur.toStr with
        | .error issue => .error (.argInvalid ("defined parameter value " ++ issue))
        | .ok v => .ok (addResult st1 (.act i) (some v))

/-- Body of the maps forEach of processMapping, from map position j.  A
source map requires a boolean or numeric translated type; its evaluation
then goes through the external expression service (note the source
compares the untranslated map.type with the BooleanString function, so a
token-typed source map always takes the numeric branch) and is outside
this embedding.  A value map coerces the stringified literal, a failure
being fatal. -/
def processMapsFrom (st : QState) (ai : Nat) (j : Nat) :
    List MapEntry → Except Err QState
  | [] => .ok st
  | m :: rest =>
    match translateType m.type with
    | .error e => .error e
    | .ok k =>
      if m.source ≠ none then
        if k = .builtin .tBool ∨ k = .builtin .tInt ∨ k = .builtin .tNum then
          .error (.external "source map evaluation is outside this embedding")
        else
          .error (.argInvalid ("cannot map a source value to parameter "
            ++ m.parameter.getD "" ++ " of a non-numeric, non-boolean type"))
      else
        match m.value with
        | some v =>
          match verifyAnswerFormB k v.toStr with
          | .error issue =>
            .error (.argInvalid ("mapping to parameter " ++ m.parameter.getD "" ++ " " ++ issue))
          | .ok vv => processMapsFrom (addResult st (.mref ai j) (some vv)) ai (j + 1) rest
        | none => .error (.jsError "mapping must specify either source or value")

/-- processMapping: the mapping action runs all its sub-maps whenever
its own condition is absent or truthy.  The condition fields of the
individual map entries are never consulted. -/
def processMapping (st : QState) (ai : Nat) : Except Err QState :=
  match st.acts[ai]? with
  | none => .error (.jsError "no action at this index")
  | some art =>
    let a := art.base
    match a.condition with
    | none => processMapsFrom st ai 0 (a.maps.getD [])
    | some c =>
      if evalTruth st c then processMapsFrom st ai 0 (a.maps.getD [])
      else .ok st

/-- getResultByIndex: the first result whose stable index property
equals the one of the action (map-entry results carry none and never
match). -/
def getResultByIndex (st : QState) (i : Nat) : Option ResultRef :=
  st.results.find? (fun r => resIndex r = some i)

/-- Scope walk of processReview over the actions before the review.  A
prior review is skipped; the included.slice(0, included.length) the
source executes there is a non-mutating no-op (Array.prototype.slice
does not truncate; the README notes reviews failing to exclude
previously reviewed items as a known issue), so the accumulator is NOT
reset.  Other candidates are excluded when they are statements, when a
questions-scoped review meets a non-question, or when their recorded
disposition ends in skipped; an included question contributes itself, an
included mapping contributes all its map entries. -/
def computeIncludedAux (st : QState) (reviewType : String) :
    List (Nat × ART) → List ResultRef → Except Err (List ResultRef)
  | [], acc => .ok acc
  | (i, art) :: rest, acc =>
    let a := art.base
    if a.review ≠ none then
      computeIncludedAux st reviewType rest acc
    else
      match (match getResultByIndex st i with
             | none => .ok false
             | some r =>
               match resDisposition st r with
               | some d => .ok (strEndsWith d "skipped")
               | none => .error (Err.jsError "endsWith applied to the undefined value")
             : Except Err Bool) with
      | .error e => .error e
      | .ok skipped =>
        let incl := a.statement = none ∧ (reviewType = "all" ∨ a.prompt ≠ none) ∧ ¬skipped
        if incl then
          if a.prompt ≠ none then
            computeIncludedAux st reviewType rest (acc ++ [.act i])
          else if a.maps ≠ none then
            computeIncludedAux st reviewType rest
              (acc ++ (List.range (a.maps.getD []).length).map (fun j => ResultRef.mref i j))
          else
            computeIncludedAux st reviewType rest acc
        else
          computeIncludedAux st reviewType rest acc

/-- The review scope of the review action at a position: walk every
action strictly before it. -/
def computeIncluded (st : QState) (ri : Nat) : Except Err (List ResultRef) :=
  match st.acts[ri]? with
  | none => .error (.jsError "no action at this index")
  | some art =>
    computeIncludedAux st (art.base.review.getD "") (st.acts.take ri).enum []

/-- Confirmation loop of processReview: ask Verified?, read one line,
coerce it as a boolean; unparseable input warns and re-asks
indefinitely. -/
def reviewAskLoop (included : List ResultRef) (input : List String) (out : List OutEvent) :
    Except Err (Bool × List ResultRef × List String × List OutEvent) :=
  let out1 := out ++ [OutEvent.reviewAsk]
  match input with
  | [] => .error .outOfInput
  | line :: rest =>
    match parseBoolAnswer (jsTrim line) with
    | some b => .ok (b, included, rest, out1)
    | none => reviewAskLoop included rest (out1 ++ [.warn "could not be parsed as a boolean"])

/-- processReview: an empty scope returns acceptance immediately with an
empty included list, writing nothing and reading nothing; otherwise the
review display is written and the confirmation loop decides. -/
def processReview (st : QState) (ri : Nat) (input : List String) (out : List OutEvent) :
    Except Err (Bool × List ResultRef × List String × List OutEvent) :=
  match computeIncluded st ri with
  | .error e => .error e
  | .ok included =>
    if included.isEmpty then .ok (true, [], input, out)
    else
      reviewAskLoop included input (out ++ [.reviewShow (included.map (resParameter st))])

/-- One pass of processActions over the remaining action positions.
first and prevPrompt drive the cosmetic blank line between outputs; the
condition-skip path continues without updating them (mirroring the
continue before the loop-tail assignments).  A rejected review deletes
every result whose parameter is among the included ones and restarts the
whole loop through the restart continuation. -/
def runPass (restart : QState → List String → List OutEvent →
      Except Err (QState × List String × List OutEvent)) :
    List Nat → QState → List String → List OutEvent → Bool → Bool →
    Except Err (QState × List String × List OutEvent)
  | [], st, input, out, _, _ => .ok (st, input, out)
  | i :: rest, st, input, out, first, prevPrompt =>
    match st.acts[i]? with
    | none => .error (.jsError "no action at this index")
    | some art =>
      let a := art.base
      let condSkip : Bool :=
        match a.condition with
        | some c => !evalTruth st c
        | none => false
      if condSkip then
        match condSkipStep st i with
        | .error e => .error e
        | .ok st2 => runPass restart rest st2 input out first prevPrompt
      else
        let definedSkip : Bool :=
          !st.noSkipDefined && !a.noSkipDefined && hasParam st a.parameter
        if definedSkip then
          match definedSkipStep st i with
          | .error e => .error e
          | .ok st2 => runPass restart rest st2 input out false (a.prompt ≠ none)
        else
          let out1 := if first = false ∧ prevPrompt = false then out ++ [OutEvent.blank] else out
          if a.prompt ≠ none then
            match askQuestion st i input out1 with
            | .error e => .error e
            | .ok (st2, input2, out2) => runPass restart rest st2 input2 out2 false true
          else if a.maps ≠ none then
            match processMapping st i with
            | .error e => .error e
            | .ok st2 => runPass restart rest st2 input out1 false false
          else if a.statement ≠ none then
            runPass restart rest st input (out1 ++ [.stmt (a.statement.getD "")]) false false
          else if a.review ≠ none then
            match processReview st i input out1 with
            | .error e => .error e
            | .ok (result, included, input2, out2) =>
              if result = true ∧ a.parameter ≠ none then
                runPass restart rest (addResult st (.act i) (some (.vBool true))) input2 out2
                  false false
              else if result = false then
                let toNix := included.map (resParameter st)
                let st2 :=
                  { st with results := st.results.filter (fun r => ¬(resParameter st r ∈ toNix)) }
                restart st2 input2 out2
              else
                runPass restart rest st input2 out2 false false
          else
            .error (.argInvalid "could not determine action type")

/-- processActions with a budget of passes: each invocation (the initial
one and each review-rejection restart) consumes one unit of fuel. -/
def runActionsFuel : Nat → QState → List String → List OutEvent →
    Except Err (QState × List String × List OutEvent)
  | 0, _, _, _ => .error .fuelOut
  | fuel + 1, st, input, out =>
    runPass (runActionsFuel fuel) (List.range st.acts.length) st input out true false

/-- Questioner construction: clone the bundle, verify it, assign the
stable indices (positions in the cloned list). -/
def mkQuestioner (acts : List ActionS) (init : List (String × Value)) (noSkip : Bool) :
    Except Err QState :=
  match verifyInterrogationBundle acts with
  | .error ci => .error (.config ci)
  | .ok _ =>
    .ok { acts := acts.map (fun a => { base := a, mvals := List.replicate (a.maps.getD []).length none })
          results := []
          init := init
          noSkipDefined := noSkip }

/-- Construct a Questioner with default options and run question() with
the given operator input script and restart budget. -/
def runQuestioner (fuel : Nat) (acts : List ActionS) (init : List (String × Value))
    (input : List String) : Except Err (QState × List String × List OutEvent) :=
  match mkQuestioner acts init false with
  | .error e => .error e
  | .ok st => runActionsFuel fuel st input []

/-!
Object-identity model of the query surface.  The three accessors differ
in the source precisely in whether they hand out the internal objects or
clones: the interactions getter returns this.#interactions itself,
getResult returns the found element of this.#results (which is the very
action object, because addResult pushes the source), and only the
results getter passes through structuredClone.  To express what
mutation through a returned handle does, the post-run object graph is
laid out on an explicit heap of addressed objects.
-/

/-- One heap object, carrying the observable fields of an action or
result object. -/
structure HeapObj where
  prompt : Option String := none
  parameter : Option String := none
  value : Option Value := none
  disposition : Option String := none
  idx : Option Nat := none
deriving DecidableEq, Repr

instance : Inhabited HeapObj := ⟨{}⟩

/-- The object heap together with the engine-internal references: the
elements of this.#interactions and of this.#results are addresses into
the store.  Allocation appends to the store. -/
structure ObjWorld where
  store : List HeapObj
  interactionIds : List Nat
  resultIds : List Nat
deriving DecidableEq, Repr

/-- Heap object of the action at a position, with its runtime
annotations (the stable index and the assigned value property that the
engine writes onto the very action object). -/
def heapObjOfART (i : Nat) (a : ART) : HeapObj :=
  { prompt := a.base.prompt
    parameter := a.base.parameter
    value := a.aval.join
    disposition := a.disposition
    idx := some i }

/-- Lay a post-run engine state out as an object heap: one object per
action at its position, the interactions array referencing exactly
those, and the results referencing the same action objects (addResult
pushes the source object, so action results alias interaction entries).
Map-entry result objects are not materialised here; the accessor claims
are demonstrated on a question-only scenario. -/
def worldOfState (st : QState) : ObjWorld :=
  { store := st.acts.enum.map (fun p => heapObjOfART p.1 p.2)
    interactionIds := List.range st.acts.length
    resultIds := st.results.filterMap (fun r => match r with | .act i => some i | .mref _ _ => none) }

/-- The interactions getter: return this.#interactions — the very list
of internal object addresses, no copy. -/
def interactionsGetter (w : ObjWorld) : List Nat :=
  w.interactionIds

/-- The results getter: structuredClone of this.#results — every
referenced object is copied to a fresh address and the fresh addresses
are returned. -/
def resultsGetter (w : ObjWorld) : ObjWorld × List Nat :=
  let fresh := (List.range w.resultIds.length).map (fun k => w.store.length + k)
  ({ w with store := w.store ++ w.resultIds.map (fun a => w.store.getD a {}) }, fresh)

/-- The getResult accessor: find inside this.#results — the address of
the internal object itself is handed out. -/
def getResultGetter (w : ObjWorld) (p : String) : Option Nat :=
  w.resultIds.find? (fun a => (w.store.getD a {}).parameter = some p)

/-- Mutate the prompt field of the object at an address (what a caller
does to a returned handle). -/
def heapSetPrompt (w : ObjWorld) (a : Nat) (s : String) : ObjWorld :=
  { w with store := updAt w.store a (fun o => { o with prompt := some s }) }

/-- Mutate the value field of the object at an address. -/
def heapSetValue (w : ObjWorld) (a : Nat) (v : Value) : ObjWorld :=
  { w with store := updAt w.store a (fun o => { o with value := some v }) }

/-- Read the prompt field of the object at an address. -/
def readPromptAt (w : ObjWorld) (a : Nat) : Option String :=
  (w.store.getD a {}).prompt

/-- Read the value field of the object at an address. -/
def readValueAt (w : ObjWorld) (a : Nat) : Option Value :=
  (w.store.getD a {}).value

/-!
Concrete scenarios used by the claims.
-/

/-- The C1 bundle: a boolean question followed by one mapping action
whose two sub-maps each carry their own condition field. -/
def c1Acts : List ActionS :=
  [ { prompt := some "Client?", parameter := some "IS_CLIENT", type := some (.tok "bool") },
    { maps := some
        [ { parameter := some "ORG", condition := some (.cvar "IS_CLIENT"),
            value := some (Value.vStr "us") },
          { parameter := some "ORG", condition := some (.cneg "IS_CLIENT"),
            value := some (Value.vStr "them") } ] } ]

/-- The C1 run: operator answers yes. -/
def c1Run : Except Err (QState × List String × List OutEvent) :=
  runQuestioner 2 c1Acts [] ["yes"]

/-- The C2 bundle: question, review, question, review (both reviews
scoped to questions). -/
def c2Acts : List ActionS :=
  [ { prompt := some "Q1", parameter := some "V1", type := some (.tok "bool") },
    { review := some "questions" },
    { prompt := some "Q2", parameter := some "V2", type := some (.tok "bool") },
    { review := some "questions" } ]

/-- The C2 run: answer yes to Q1, accept the first review, answer yes to
Q2, reject the second review; on the restart answer no to Q1 (it is
re-asked because its result was deleted), accept the first review,
answer no to Q2, accept the second review. -/
def c2Run : Except Err (QState × List String × List OutEvent) :=
  runQuestioner 2 c2Acts [] ["yes", "yes", "yes", "no", "no", "yes", "no", "yes"]

/-- The C3 bundle: two questions naming the same parameter (the second
is defined-skipped after the first is answered and records again). -/
def c3ActsQ : List ActionS :=
  [ { prompt := some "Client?", parameter := some "IS_CLIENT", type := some (.tok "bool") },
    { prompt := some "Really?", parameter := some "IS_CLIENT", type := some (.tok "bool") } ]

/-- The C3 question run: one answer, the second question defined-skips. -/
def c3RunQ : Except Err (QState × List String × List OutEvent) :=
  runQuestioner 2 c3ActsQ [] ["yes"]

/-- The C3 mapping bundle: one mapping action whose two sub-maps name
the same parameter with different literal values. -/
def c3ActsM : List ActionS :=
  [ { maps := some
        [ { parameter := some "X", value := some (Value.vStr "a") },
          { parameter := some "X", value := some (Value.vStr "b") } ] } ]

/-- The C3 mapping run: no operator interaction. -/
def c3RunM : Except Err (QState × List String × List OutEvent) :=
  runQuestioner 2 c3ActsM [] []

/-- An action carrying two kind discriminators (both prompt and
statement), used against the exactly-one-discriminator claim. -/
def c4DoubleAct : ActionS :=
  { prompt := some "Q", parameter := some "P", statement := some "S" }

/-- An action with zero kind discriminators. -/
def c4EmptyAct : ActionS := {}

/-- A statement action (passes verification). -/
def c4StmtAct : ActionS := { statement := some "S" }

/-- Absence of every kind discriminator, exactly as the first check of
verifyInterrogationBundle tests it. -/
def zeroDiscriminator (a : ActionS) : Prop :=
  a.prompt = none ∧ a.maps = none ∧ a.statement = none ∧ a.review = none

/-- A question whose declared type is the given token. -/
def c5Question (t : String) : ActionS :=
  { prompt := some "Q", parameter := some "P", type := some (.tok t) }

/-- The case-insensitive alias tokens translateType accepts. -/
def aliasTokens : List String :=
  ["string", "int", "integer", "float", "numeric", "bool", "boolean"]

/-- The C5 run of the stringy-typed question (construction passes; the
question is then asked and translateType throws). -/
def c5Run : Except Err (QState × List String × List OutEvent) :=
  runQuestioner 2 [c5Question "stringy"] [] ["x"]

/-- The C6 bundle: one boolean question whose parameter is supplied (as
a raw string) in the initial parameters. -/
def c6Acts : List ActionS :=
  [ { prompt := some "Client?", parameter := some "IS_CLIENT", type := some (.tok "bool") } ]

/-- The C6 run: no operator input is needed, the question defined-skips. -/
def c6Run : Except Err (QState × List String × List OutEvent) :=
  runQuestioner 2 c6Acts [("IS_CLIENT", Value.vStr "false")] []

/-- The C7 bundle: a question guarded by a condition on an undefined
parameter, with no elseValue and no elseSource. -/
def c7Acts : List ActionS :=
  [ { prompt := some "Q", parameter := some "P", condition := some (.cvar "FOO") } ]

/-- The C7 run: the condition is falsy, nothing is asked. -/
def c7Run : Except Err (QState × List String × List OutEvent) :=
  runQuestioner 2 c7Acts [] []

/-- The C8 bundle: one question whose parameter is supplied initially,
the scenario of the accessor unit test of the source. -/
def c8Acts : List ActionS :=
  [ { prompt := some "Q", parameter := some "V" } ]

/-- The post-run object world of the C8 scenario (an empty world when
the run failed, which the theorem rules out). -/
def c8World : ObjWorld :=
  match runQuestioner 2 c8Acts [("V", Value.vStr "foo")] [] with
  | .ok (st, _, _) => worldOfState st
  | .error _ => { store := [], interactionIds := [], resultIds := [] }

/-- The C9 bundle: a free-form multi-value question with the custom
separator containing regex metacharacters. -/
def c9Acts : List ActionS :=
  [ { prompt := some "Names?", parameter := some "NAMES", multiValue := true,
      separator := some "|&(" } ]

/-- The C10 post-construction state: a single review action (what
mkQuestioner produces for that bundle). -/
def c10St : QState :=
  { acts := [ { base := { review := some "questions" } } ], results := [], init := [] }

/-- The C7 action object after construction (the runtime state of the
conditioned question). -/
def c7Art : ART :=
  { base := { prompt := some "Q", parameter := some "P", condition := some (.cvar "FOO") } }

/-- The C7 post-construction state: the conditioned question, nothing
resolved yet (what mkQuestioner produces for c7Acts). -/
def c7St : QState :=
  { acts := [c7Art], results := [], init := [] }

/-!
Theorems.
-/

/-- C1, counterexample.  In the stated bundle with answer yes the run
completes with values.IS_CLIENT true, but values.ORG is the string them,
not us as the claim asserts: processMapping never evaluates the
condition field of an individual sub-map. -/
theorem c1_submap_condition_claim_false :
    c1Run.isOk = true ∧
    (c1Run.toOption.map (fun r => valuesLast r.1 "IS_CLIENT"))
      = some (some (Value.vBool true)) ∧
    (c1Run.toOption.map (fun r => valuesLast r.1 "ORG"))
      ≠ some (some (Value.vStr "us")) := by
  decide

/-- C1, amended.  With the conditions written on the sub-maps of one
mapping action, both sub-maps record a result for ORG (2 entries): the
values getter reads the last one (them) while getResult returns the
first (us).  Only the condition of the mapping action itself is
evaluated; the per-sub-map condition fields are ignored. -/
theorem c1_amended_submap_conditions_ignored :
    (c1Run.toOption.map (fun r => valuesLast r.1 "IS_CLIENT"))
      = some (some (Value.vBool true)) ∧
    (c1Run.toOption.map (fun r => valuesLast r.1 "ORG"))
      = some (some (Value.vStr "them")) ∧
    (c1Run.toOption.map
      (fun r => (r.1.results.filter (fun rr => resParameter r.1 rr = some "ORG")).length))
      = some 2 ∧
    (c1Run.toOption.map (fun r => (getResult r.1 "ORG").bind (resValue r.1)))
      = some (some (Value.vStr "us")) := by
  decide

/-- C2, code-bug demonstration.  In the bundle Q1, review, Q2, review
(both reviews question-scoped), answering yes to both questions and
rejecting the second review makes the engine delete and re-prompt BOTH
questions, not only Q2: the prompt for V1 is issued twice and V1 ends
with the value of the second pass (false here), because the
included.slice call on the earlier review is a non-mutating no-op and
the review scope is never reset (the README records this as a known
issue). -/
theorem c2_review_rescope_bug_demo :
    c2Run.isOk = true ∧
    (c2Run.toOption.map (fun r => promptCount r.2.2 "V1")) = some 2 ∧
    (c2Run.toOption.map (fun r => promptCount r.2.2 "V2")) = some 2 ∧
    (c2Run.toOption.map (fun r => valuesLast r.1 "V1"))
      = some (some (Value.vBool false)) ∧
    (c2Run.toOption.map (fun r => valuesLast r.1 "V2"))
      = some (some (Value.vBool false)) := by
  decide

/-- C3, counterexample.  After the run of two questions naming the same
parameter (the second defined-skips), the results list holds two
current entries for IS_CLIENT, refuting the at-most-one-entry
invariant: addResult appended rather than superseding. -/
theorem c3_unique_result_claim_false :
    (c3RunQ.toOption.map
      (fun r => (r.1.results.filter (fun rr => resParameter r.1 rr = some "IS_CLIENT")).length))
      = some 2 := by
  decide

/-- C3, amended.  addResult always appends one entry, never replacing a
prior one; the results list can therefore hold several entries per
parameter.  getResult reads the first entry and values the last, and
the two can disagree: in the two-sub-map run getResult sees the string
a while values sees b. -/
theorem c3_amended_results_append :
    (∀ (st : QState) (r : ResultRef) (v : Option Value),
      (addResult st r v).results = st.results ++ [r]) ∧
    (c3RunQ.toOption.map
      (fun r => (r.1.results.filter (fun rr => resParameter r.1 rr = some "IS_CLIENT")).length))
      = some 2 ∧
    (c3RunM.toOption.map
      (fun r => (r.1.results.filter (fun rr => resParameter r.1 rr = some "X")).length))
      = some 2 ∧
    (c3RunM.toOption.map (fun r => (getResult r.1 "X").bind (resValue r.1)))
      = some (some (Value.vStr "a")) ∧
    (c3RunM.toOption.map (fun r => valuesLast r.1 "X"))
      = some (some (Value.vStr "b")) := by
  refine ⟨fun st r v => ?_, ?_⟩
  · cases r <;> rfl
  · decide

/-- C3, witness for the amended theorem: the append behaviour of
addResult applied at a concrete empty state. -/
theorem c3_amended_results_append_witness :
    (addResult { acts := [], results := [], init := [] } (ResultRef.act 0) none).results
      = ({ acts := [], results := [], init := [] } : QState).results ++ [ResultRef.act 0] :=
  (c3_amended_results_append.1 { acts := [], results := [], init := [] } (ResultRef.act 0) none)

/-- C4, counterexample.  An action carrying two kind discriminators
(prompt and statement) passes verification and construction: the
verifier only rejects zero discriminators, never a surplus. -/
theorem c4_multi_discriminator_claim_false :
    c4DoubleAct.prompt ≠ none ∧ c4DoubleAct.statement ≠ none ∧
    verifyInterrogationBundle [c4DoubleAct] = .ok () ∧
    (mkQuestioner [c4DoubleAct] [] false).isOk = true := by
  decide

/-- C5, counterexample.  The token stringy is not a case-insensitive
alias, yet construction succeeds (the unanchored regex matches the
embedded substring string) and the failure only surfaces at run time,
when translateType throws while the question is processed. -/
theorem c5_type_token_claim_false :
    strLower "stringy" ∉ aliasTokens ∧
    verifyInterrogationBundle [c5Question "stringy"] = .ok () ∧
    c5Run = .error (.argInvalid "Unknown parameter type: stringy") := by
  decide

/-- C6, code-bug demonstration.  With IS_CLIENT supplied initially as
the raw string false, the run completes without any prompt for
IS_CLIENT, get returns the type-coerced boolean false — but the
disposition recorded is the string define-skipped (the value of the
DEFINED_SKIPPED constant), not defined-skipped as the claim and the API
reference state. -/
theorem c6_defined_skip_run :
    c6Run.isOk = true ∧
    (c6Run.toOption.map (fun r => (getResult r.1 "IS_CLIENT").map (resDisposition r.1)))
      = some (some (some DEFINED_SKIPPED)) ∧
    DEFINED_SKIPPED = "define-skipped" ∧
    DEFINED_SKIPPED ≠ "defined-skipped" ∧
    (c6Run.toOption.map (fun r => getVal r.1 (some "IS_CLIENT")))
      = some (some (Value.vBool false)) ∧
    (c6Run.toOption.map (fun r => promptCount r.2.2 "IS_CLIENT")) = some 0 := by
  decide

/-- C7, counterexample.  A run of one question with a falsy condition
and no else-branch completes with a result entry recorded for P
(disposition condition-skipped, no value), so it is not true that no
result is recorded; has is nevertheless false. -/
theorem c7_no_result_claim_false :
    (c7Run.toOption.map (fun r => getResult r.1 "P")) = some (some (ResultRef.act 0)) ∧
    (c7Run.toOption.map (fun r => (getResult r.1 "P").map (resDisposition r.1)))
      = some (some (some CONDITION_SKIPPED)) ∧
    (c7Run.toOption.map (fun r => hasParam r.1 (some "P"))) = some false := by
  decide

/-- C9, confirmed.  Every regex metacharacter of the separator is
escaped before the split: the separator pipe-ampersand-paren is escaped
to a literal pattern, the answer Hi-sep-Bye splits into exactly the two
tokens, and with a custom separator configured a comma inside the
answer is not a split point — both facts verified on full engine runs
as well as on the splitting function. -/
theorem c9_separator_split :
    escapeRegExp "|&(" = "\\|&\\(" ∧
    regexSplit (escapeRegExp "|&(") "Hi|&(Bye" = some ["Hi", "Bye"] ∧
    regexSplit (escapeRegExp "|&(") "Hi,Bye" = some ["Hi,Bye"] ∧
    ((runQuestioner 2 c9Acts [] ["Hi|&(Bye"]).toOption.map (fun r => valuesLast r.1 "NAMES"))
      = some (some (Value.arr [.pStr "Hi", .pStr "Bye"])) ∧
    ((runQuestioner 2 c9Acts [] ["Hi,Bye"]).toOption.map (fun r => valuesLast r.1 "NAMES"))
      = some (some (Value.arr [.pStr "Hi,Bye"])) := by
  decide

/-- C8, code-bug demonstration on the object-identity model of the
post-run state of the accessor-test scenario.  The interactions getter
hands out the internal object addresses themselves: writing a new
prompt through the returned handle changes what the engine-internal
reference reads, and getResult likewise returns an address that is one
of the internal interaction objects (which moreover carries the
internal idx annotation).  Only the results getter allocates fresh
copies: the copied address is disjoint from every internal reference
and mutating the copy leaves the internal result object unchanged. -/
theorem c8_accessor_aliasing_demo :
    (runQuestioner 2 c8Acts [("V", Value.vStr "foo")] []).isOk = true ∧
    interactionsGetter c8World = c8World.interactionIds ∧
    readPromptAt (heapSetPrompt c8World ((interactionsGetter c8World).headD 99) "W")
      (c8World.interactionIds.headD 98) = some "W" ∧
    getResultGetter c8World "V" = some 0 ∧
    (0 : Nat) ∈ c8World.interactionIds ∧
    (c8World.store.getD 0 {}).idx = some 0 ∧
    (resultsGetter c8World).2 = [1] ∧
    ((1 : Nat) ∉ c8World.interactionIds ∧ (1 : Nat) ∉ c8World.resultIds) ∧
    readValueAt (heapSetValue (resultsGetter c8World).1 1 (Value.vStr "bar"))
      ((resultsGetter c8World).1.resultIds.headD 99) = some (Value.vStr "foo") := by
  decide

/-- Helper: a zero-discriminator action is reported as the
missing-action-type issue. -/
theorem actionIssue_of_zero (a : ActionS) (h : zeroDiscriminator a) :
    actionIssue a = some (fun n => ConfigIssue.noActionType n) := by
  unfold zeroDiscriminator at h
  unfold actionIssue
  rw [if_pos h]

/-- Helper: mapping verification never produces the missing-action-type
issue. -/
theorem mappingIssue_ne_noActionType (ms : List MapEntry) (i : ConfigIssue)
    (h : mappingIssue ms = some i) (n : Nat) : i ≠ .noActionType n := by
  induction ms with
  | nil => simp [mappingIssue] at h
  | cons m rest ih =>
    unfold mappingIssue at h
    split at h
    · injection h with h
      subst h
      simp
    · split at h
      · injection h with h
        subst h
        simp
      · exact ih h

/-- Helper: the per-kind checks never produce the missing-action-type
issue. -/
theorem actionKindIssue_ne_noActionType (a : ActionS) (f : Nat → ConfigIssue)
    (h : actionKindIssue a = some f) (k n : Nat) : f k ≠ .noActionType n := by
  unfold actionKindIssue at h
  split at h
  · split at h
    · injection h with h
      subst h
      simp
    · split at h
      · split at h
        · simp at h
        · injection h with h
          subst h
          simp
      · simp at h
  · split at h
    · rcases hmi : mappingIssue (a.maps.getD []) with _ | j
      · rw [hmi] at h
        simp at h
      · rw [hmi] at h
        simp only [Option.map] at h
        injection h with h
        subst h
        exact mappingIssue_ne_noActionType _ _ hmi n
    · split at h
      · split at h
        · simp at h
        · injection h with h
          subst h
          simp
      · simp at h

/-- Helper: the options checks never produce the missing-action-type
issue. -/
theorem optionsIssue_ne_noActionType (a : ActionS) (f : Nat → ConfigIssue)
    (h : optionsIssue a = some f) (k n : Nat) : f k ≠ .noActionType n := by
  unfold optionsIssue at h
  split at h
  · split at h
    · simp at h
    · injection h with h
      subst h
      simp
  · simp at h

/-- Helper: an action with at least one discriminator is never reported
as the missing-action-type issue. -/
theorem actionIssue_ne_noActionType (a : ActionS) (hd : ¬ zeroDiscriminator a)
    (f : Nat → ConfigIssue) (hf : actionIssue a = some f) (k n : Nat) :
    f k ≠ .noActionType n := by
  unfold zeroDiscriminator at hd
  unfold actionIssue at hf
  rw [if_neg hd] at hf
  rcases hki : actionKindIssue a with _ | i
  · simp only [hki] at hf
    exact optionsIssue_ne_noActionType a f hf k n
  · simp only [hki] at hf
    injection hf with hf
    subst hf
    exact actionKindIssue_ne_noActionType a i hki k n

/-- Helper: verification from any start position reports a
zero-discriminator action behind a clean prefix at its 1-based
position. -/
theorem verifyIBFrom_append_zeroDisc (pre : List ActionS) (a : ActionS)
    (post : List ActionS) (hpre : ∀ x ∈ pre, actionIssue x = none)
    (ha : zeroDiscriminator a) (i : Nat) :
    verifyIBFrom i (pre ++ a :: post) = .error (.noActionType (i + pre.length + 1)) := by
  induction pre generalizing i with
  | nil =>
    simp only [List.nil_append, verifyIBFrom, actionIssue_of_zero a ha, List.length_nil]
  | cons x xs ih =>
    have hx : actionIssue x = none := hpre x (by simp)
    have step : verifyIBFrom i ((x :: xs) ++ a :: post)
        = verifyIBFrom (i + 1) (xs ++ a :: post) := by
      simp only [List.cons_append, verifyIBFrom, hx, List.append_eq]
    rw [step, ih (fun y hy => hpre y (by simp [hy])) (i + 1)]
    simp only [List.length_cons]
    congr 2
    omega

/-- Helper: when every action has a discriminator, verification never
fails with the missing-action-type issue. -/
theorem verifyIBFrom_no_noActionType (acts : List ActionS)
    (h : ∀ x ∈ acts, ¬ zeroDiscriminator x) (i n : Nat) :
    verifyIBFrom i acts ≠ .error (.noActionType n) := by
  induction acts generalizing i with
  | nil => simp [verifyIBFrom]
  | cons x xs ih =>
    unfold verifyIBFrom
    rcases hx : actionIssue x with _ | f
    · exact ih (fun y hy => h y (by simp [hy])) (i + 1)
    · intro hc
      injection hc with hc
      exact actionIssue_ne_noActionType x (h x (by simp)) f hx (i + 1) n hc

/-- C4, amended.  Construction rejects an action with zero of the four
kind discriminators with a configuration error naming its 1-based
position (given that the earlier actions verify), but an action with
more than one discriminator is not rejected for the surplus — the first
matching kind in the order prompt, maps, statement, review governs — so
a list whose every entry has at least one (in particular exactly one)
discriminator never fails the discriminator check. -/
theorem c4_amended_discriminator_check :
    (∀ (pre : List ActionS) (a : ActionS) (post : List ActionS),
      (∀ x ∈ pre, actionIssue x = none) → zeroDiscriminator a →
      verifyInterrogationBundle (pre ++ a :: post) = .error (.noActionType (pre.length + 1)))
    ∧ (∀ (acts : List ActionS) (n : Nat),
      (∀ x ∈ acts, ¬ zeroDiscriminator x) →
      verifyInterrogationBundle acts ≠ .error (.noActionType n)) := by
  constructor
  · intro pre a post hpre ha
    have := verifyIBFrom_append_zeroDisc pre a post hpre ha 0
    simpa [verifyInterrogationBundle] using this
  · intro acts n h
    exact verifyIBFrom_no_noActionType acts h 0 n

/-- C4, witness for the amended theorem: a statement action followed by
a discriminator-free action is rejected naming position 2, while the
one-discriminator statement list never draws the missing-discriminator
error. -/
theorem c4_amended_discriminator_check_witness :
    verifyInterrogationBundle [c4StmtAct, c4EmptyAct] = .error (.noActionType 2) ∧
    verifyInterrogationBundle [c4StmtAct] ≠ .error (.noActionType 1) := by
  constructor
  · exact c4_amended_discriminator_check.1 [c4StmtAct] c4EmptyAct []
      (by intro x hx; simp at hx; subst hx; rfl)
      (by constructor <;> simp [c4EmptyAct])
  · exact c4_amended_discriminator_check.2 [c4StmtAct] 1
      (by intro x hx; simp at hx; subst hx; simp [zeroDiscriminator, c4StmtAct])

/-- C5, amended.  For a question with a string type token, construction
succeeds exactly when the token contains one of the five stems bool,
int, float, numeric, string as a case-sensitive substring (the
unanchored regex of the verifier); translateType, by contrast, succeeds
exactly when the lower-cased token is one of the seven case-insensitive
aliases.  Tokens in the difference (such as stringy) pass construction
and fail only at run time; upper-case aliases (such as BOOL) fail at
construction although translateType would accept them. -/
theorem c5_amended_type_token_check (t : String) :
    (verifyInterrogationBundle [c5Question t] = .ok () ↔ typeRegexTest t = true)
    ∧ ((translateType (some (.tok t))).isOk = true ↔ strLower t ∈ aliasTokens) := by
  constructor
  · cases htr : typeRegexTest t <;>
      simp [verifyInterrogationBundle, verifyIBFrom, actionIssue, actionKindIssue,
        optionsIssue, c5Question, htr]
  · simp only [translateType, aliasTokens]
    split_ifs with h1 h2 h3 h4 <;> simp_all [Except.isOk, Except.toBool] <;> tauto

/-- C5, witness for the amended theorem: instantiated at the token
stringy, which passes the construction-time regex but is no alias. -/
theorem c5_amended_type_token_check_witness :
    (verifyInterrogationBundle [c5Question "stringy"] = .ok ()
      ↔ typeRegexTest "stringy" = true)
    ∧ ((translateType (some (.tok "stringy"))).isOk = true
      ↔ strLower "stringy" ∈ aliasTokens) :=
  c5_amended_type_token_check "stringy"

/-- C10, confirmed.  Whenever the scope computation of a review yields
no included items, the review resolver returns acceptance with an empty
included list immediately: the input script and the output trace are
both returned unchanged (nothing is written, nothing is read). -/
theorem c10_empty_review_accepts (st : QState) (ri : Nat) (input : List String)
    (out : List OutEvent) (h : computeIncluded st ri = .ok []) :
    processReview st ri input out = .ok (true, [], input, out) := by
  unfold processReview
  rw [h]
  simp

/-- C10, witness: the single-review state (a review as the very first
action) has an empty scope, and the resolver accepts immediately,
leaving the pending input line unread and the output trace unwritten. -/
theorem c10_empty_review_accepts_witness :
    processReview c10St 0 ["anything"] [] = .ok (true, [], ["anything"], []) :=
  c10_empty_review_accepts c10St 0 ["anything"] [] (by decide)

/-- Helper: pointwise description of updAt. -/
theorem updAt_getElem? {α : Type} (l : List α) (i j : Nat) (f : α → α) :
    (updAt l i f)[j]? = if i = j then (l[j]?).map f else l[j]? := by
  induction l generalizing i j with
  | nil => simp [updAt]
  | cons x xs ih =>
    cases i with
    | zero =>
      cases j with
      | zero => simp [updAt]
      | succ j' => simp [updAt]
    | succ i' =>
      cases j with
      | zero => simp [updAt]
      | succ j' =>
        simp only [updAt, List.getElem?_cons_succ, ih]
        by_cases hij : i' = j'
        · simp [hij]
        · rw [if_neg hij, if_neg (by omega)]

/-- Helper: the condition-skip recording of a valueless result leaves
every result parameter unchanged (the in-place updates preserve the
base action). -/
theorem resParameter_condSkipRecord (st : QState) (i : Nat) (r : ResultRef) :
    resParameter (addResult (setDisposition st i CONDITION_SKIPPED) (.act i) none) r
      = resParameter st r := by
  cases r with
  | act j =>
    simp only [resParameter, addResult, setDisposition, updAt_getElem?]
    by_cases hij : i = j
    · rw [if_pos hij, if_pos hij]
      cases st.acts[j]? <;> simp
    · rw [if_neg hij, if_neg hij]
  | mref j m =>
    simp only [resParameter, addResult, setDisposition, updAt_getElem?]
    by_cases hij : i = j
    · rw [if_pos hij, if_pos hij]
      cases st.acts[j]? <;> simp
    · rw [if_neg hij, if_neg hij]

/-- Helper: find? over an exhausted prefix continues in the suffix. -/
theorem find?_append_none {α : Type} {p : α → Bool} {l1 : List α}
    (h : List.find? p l1 = none) (l2 : List α) :
    List.find? p (l1 ++ l2) = List.find? p l2 := by
  induction l1 with
  | nil => simp
  | cons x xs ih =>
    rw [List.cons_append]
    cases hx : p x with
    | true =>
      rw [List.find?_cons_of_pos _ (by simp [hx])] at h
      cases h
    | false =>
      rw [List.find?_cons_of_neg _ (by simp [hx])] at h
      rw [List.find?_cons_of_neg _ (by simp [hx])]
      exact ih h

/-- C7, amended.  A condition-skipped question (or any parameter-naming
action) with neither elseValue nor elseSource DOES record a result: the
action reference is appended to the results with no value and the
condition-skipped disposition.  Because the recorded value is undefined,
get falls back to the initial parameters, so when the parameter is
absent there (and no earlier result names it), has still reports
false — the operationally visible half of the original claim. -/
theorem c7_amended_condition_skip_records
    (st : QState) (i : Nat) (art : ART) (P : String) (k : CoerceKind)
    (hact : st.acts[i]? = some art)
    (hpar : art.base.parameter = some P)
    (hev : art.base.elseValue = none)
    (hes : art.base.elseSource = none)
    (hty : translateType art.base.type = .ok k) :
    ∃ st', condSkipStep st i = .ok st' ∧
      st'.results = st.results ++ [ResultRef.act i] ∧
      resValue st' (.act i) = none ∧
      resDisposition st' (.act i) = some CONDITION_SKIPPED ∧
      resParameter st' (.act i) = some P ∧
      ((∀ r ∈ st.results, resParameter st r ≠ some P) →
        getResult st' P = some (.act i) ∧
        (initLookup st P = none → hasParam st' (some P) = false)) := by
  refine ⟨addResult (setDisposition st i CONDITION_SKIPPED) (.act i) none, ?_, ?_, ?_, ?_, ?_, ?_⟩
  · unfold condSkipStep
    simp only [hact, hty, hev, hes]
  · simp [addResult, setDisposition]
  · simp [resValue, addResult, setDisposition, updAt_getElem?, hact]
  · simp [resDisposition, addResult, setDisposition, updAt_getElem?, hact]
  · simp [resParameter, addResult, setDisposition, updAt_getElem?, hact, hpar]
  · intro hnone
    have hpres : ∀ r : ResultRef,
        resParameter (addResult (setDisposition st i CONDITION_SKIPPED) (.act i) none) r
          = resParameter st r := resParameter_condSkipRecord st i
    have hparF : resParameter (addResult (setDisposition st i CONDITION_SKIPPED) (.act i) none)
        (.act i) = some P := by
      simp [resParameter, addResult, setDisposition, updAt_getElem?, hact, hpar]
    have hfind : getResult (addResult (setDisposition st i CONDITION_SKIPPED) (.act i) none) P
        = some (.act i) := by
      unfold getResult getResultO
      have hres : (addResult (setDisposition st i CONDITION_SKIPPED) (.act i) none).results
          = st.results ++ [ResultRef.act i] := by
        simp [addResult, setDisposition]
      rw [hres]
      rw [find?_append_none]
      · simp [hparF]
      · rw [List.find?_eq_none]
        intro r hr
        simp only [decide_eq_true_eq]
        rw [hpres r]
        exact hnone r hr
    refine ⟨hfind, ?_⟩
    intro hinit
    have hval : getVal (addResult (setDisposition st i CONDITION_SKIPPED) (.act i) none)
        (some P) = none := by
      unfold getVal
      rw [show getResultO (addResult (setDisposition st i CONDITION_SKIPPED) (.act i) none)
            (some P) = some (.act i) from hfind]
      have hv : resValue (addResult (setDisposition st i CONDITION_SKIPPED) (.act i) none)
          (.act i) = none := by
        simp [resValue, addResult, setDisposition, updAt_getElem?, hact]
      rw [Option.bind]
      simp only [hv]
      have : initLookup (addResult (setDisposition st i CONDITION_SKIPPED) (.act i) none) P
          = initLookup st P := by
        simp [initLookup, addResult, setDisposition]
      simp [this, hinit]
    unfold hasParam
    rw [hval]
    rcases hfind2 : st.init.find? (fun kv => kv.1 = P) with _ | kv
    · simp [addResult, setDisposition, hfind2]
    · exfalso
      have : initLookup st P = some kv.2 := by
        simp [initLookup, hfind2]
      rw [hinit] at this
      cases this

/-- C7, witness for the amended theorem: the concrete condition-skip
state.  The single question with the falsy condition records the
valueless condition-skipped result, and has is false. -/
theorem c7_amended_condition_skip_records_witness :
    ∃ st', condSkipStep c7St 0 = .ok st' ∧
      st'.results = c7St.results ++ [ResultRef.act 0] ∧
      resValue st' (.act 0) = none ∧
      resDisposition st' (.act 0) = some CONDITION_SKIPPED ∧
      resParameter st' (.act 0) = some "P" ∧
      ((∀ r ∈ c7St.results, resParameter c7St r ≠ some "P") →
        getResult st' "P" = some (.act 0) ∧
        (initLookup c7St "P" = none → hasParam st' (some "P") = false)) :=
  c7_amended_condition_skip_records c7St 0 c7Art "P" (.builtin .tString) rfl rfl rfl rfl rfl

end QnA
